import Mathlib

/-
Verification of the FaaS metrics gateway.

The development shallowly embeds `src/gateway/metrics/add_metrics.go`
(the enrichment handler `AddMetricsHandler` and the four join functions
`mixIn`, `mixCPU`, `mixMemory`, `mixTime`) and the exporter scrape path
of the `Exporter` (`Collect` and its `calc` helper).

Modelling conventions:
- Go `float64` metric values are modelled as exact rationals (`ℚ`);
  the claims under verification are algebraic (sums, means,
  order-independence) and are stated over this idealised arithmetic.
- A Prometheus sample value (`Value[1]`, an `interface{}`) is modelled
  by what the joining code can observe of it: either a string, which
  `strconv.ParseFloat` turns into `some q` or fails on (`none`), or a
  non-string value.  The timestamp slot `Value[0]` is never read by the
  source and is not modelled.
- `url.QueryEscape` is an injective transport encoding applied to the
  constructed query right before `Fetch`; the transport is opaque here,
  so the model hands the constructed query itself to the fetcher.
- `json.Unmarshal` of the upstream body is modelled by recording, next
  to the raw body bytes, the outcome of parsing them
  (`Except String (List ProviderFunctionStatus)`); `json.Marshal` of the
  enriched list is modelled as total (it cannot fail on these records).
- `http.Error` (net/http) writes the message followed by a newline
  (`fmt.Fprintln`); the model reproduces that trailing newline.
-/

namespace FaaS

/-- Resource requests/limits of a record (`FunctionResources`). -/
structure FunctionResources where
  CPU : String
  Memory : String
deriving DecidableEq

/-- Metric usage block of an enriched record (`FunctionUsage`). -/
structure FunctionUsage where
  CPU : ℚ
  TotalMemoryBytes : ℚ
deriving DecidableEq

/-- The enriched record type (the package-local `FunctionStatus` of
`src/gateway/metrics/add_metrics.go`).  The `Usage`, `Limits` and
`Requests` pointers are always freshly allocated by the handler before
use, so they are modelled as plain values. -/
structure FunctionStatus where
  Name : String
  Namespace : String
  Image : String
  InvocationCount : ℚ
  InvocationAvgTime : ℚ
  Usage : FunctionUsage
  Limits : FunctionResources
  Requests : FunctionResources
  EnvProcess : String
  EnvVars : List (String × String)
  AvailableReplicas : Nat
  Replicas : Nat
  Secrets : List String
  Labels : Option (List (String × String))
  Annotations : Option (List (String × String))
  Constraints : List String
  ReadOnlyRootFilesystem : Bool
  CreatedAt : Nat
deriving DecidableEq

/-- The upstream provider record (`types.FunctionStatus` of
faas-provider), restricted to the fields the sources read.  Go maps are
modelled as association lists and `time.Time` as a timestamp. -/
structure ProviderFunctionStatus where
  Name : String
  Namespace : String
  Image : String
  Limits : Option FunctionResources
  Requests : Option FunctionResources
  EnvProcess : String
  EnvVars : List (String × String)
  AvailableReplicas : Nat
  Replicas : Nat
  Secrets : List String
  Labels : Option (List (String × String))
  Annotations : Option (List (String × String))
  Constraints : List String
  ReadOnlyRootFilesystem : Bool
  CreatedAt : Nat
deriving DecidableEq

/-- Label set of a time-series sample (`VectorQueryResponse` result
entry metric block: the labels the joins read). -/
structure SampleMetric where
  FunctionName : String
  Container : String
  Namespace : String
deriving DecidableEq

/-- The value slot `Value[1]` of a sample as the joining code observes
it: a string together with its `strconv.ParseFloat` outcome, or a
non-string value (which every `switch value := metricValue.(type)`
falls through on). -/
inductive SampleValue where
  | str (parsed : Option ℚ)
  | nonStr
deriving DecidableEq

/-- One time-series sample of a vector query response. -/
structure VectorSample where
  Metric : SampleMetric
  Value : SampleValue
deriving DecidableEq

/-- The data block of a vector query response. -/
structure QueryData where
  Result : List VectorSample
deriving DecidableEq

/-- A parsed vector query response (`VectorQueryResponse`). -/
structure VectorQueryResponse where
  Data : QueryData
deriving DecidableEq

/-- The zero-result response. -/
def emptyVec : VectorQueryResponse := ⟨⟨[]⟩⟩

/-- What a join extracts from a sample value: the parsed float of a
string value, nothing otherwise. -/
def sampleParsed : SampleValue → Option ℚ
  | SampleValue.str p => p
  | SampleValue.nonStr => none

/-- Zero-initialisation of one record (`AddMetricsHandler`, the
"Ensure values are empty first" loop): fresh zeroed metric fields, all
other fields copied from the provider record.  The source guards the
`Labels` copy with a nil check whose both branches coincide with a
plain copy, and substitutes empty `Limits`/`Requests` when the provider
pointers are nil. -/
def newFunctionStatus (p : ProviderFunctionStatus) : FunctionStatus where
  Name := p.Name
  Namespace := p.Namespace
  Image := p.Image
  InvocationCount := 0
  InvocationAvgTime := 0
  Usage := { CPU := 0, TotalMemoryBytes := 0 }
  Limits := match p.Limits with
    | some l => { CPU := l.CPU, Memory := l.Memory }
    | none => { CPU := "", Memory := "" }
  Requests := match p.Requests with
    | some r => { CPU := r.CPU, Memory := r.Memory }
    | none => { CPU := "", Memory := "" }
  EnvProcess := p.EnvProcess
  EnvVars := p.EnvVars
  AvailableReplicas := p.AvailableReplicas
  Replicas := p.Replicas
  Secrets := p.Secrets
  Labels := p.Labels
  Annotations := p.Annotations
  Constraints := p.Constraints
  ReadOnlyRootFilesystem := p.ReadOnlyRootFilesystem
  CreatedAt := p.CreatedAt

/-- Inner loop of `mixIn` for one record: `f` is the loop's snapshot of
the record (its name and namespace drive the match), `acc` the record
being mutated in place. -/
def mixInRecord (f : FunctionStatus) (acc : FunctionStatus) : List VectorSample → FunctionStatus
  | [] => acc
  | v :: rest =>
    if v.Metric.FunctionName = f.Name ++ "." ++ f.Namespace then
      match v.Value with
      | SampleValue.str (some q) =>
          mixInRecord f { acc with InvocationCount := acc.InvocationCount + q } rest
      | SampleValue.str none => mixInRecord f acc rest
      | SampleValue.nonStr => mixInRecord f acc rest
    else mixInRecord f acc rest

/-- The invocation-count join `mixIn`: sums every parsable sample whose
`function_name` label equals `"name.namespace"` onto the record's
invocation count. -/
def mixIn (functions : List FunctionStatus) (metrics : VectorQueryResponse) : List FunctionStatus :=
  functions.map (fun function => mixInRecord function function metrics.Data.Result)

/-- Inner loop of `mixCPU` for one record. -/
def mixCPURecord (f : FunctionStatus) (acc : FunctionStatus) : List VectorSample → FunctionStatus
  | [] => acc
  | v :: rest =>
    if v.Metric.Container = f.Name ∧ v.Metric.Namespace = f.Namespace then
      match v.Value with
      | SampleValue.str (some q) =>
          mixCPURecord f { acc with Usage := { acc.Usage with CPU := acc.Usage.CPU + q } } rest
      | SampleValue.str none => mixCPURecord f acc rest
      | SampleValue.nonStr => mixCPURecord f acc rest
    else mixCPURecord f acc rest

/-- The CPU join `mixCPU`: sums every parsable sample whose `container`
label equals the record's name and whose `namespace` label equals the
record's namespace onto `Usage.CPU`. -/
def mixCPU (functions : List FunctionStatus) (metrics : VectorQueryResponse) : List FunctionStatus :=
  functions.map (fun function => mixCPURecord function function metrics.Data.Result)

/-- Inner loop of `mixMemory` for one record. -/
def mixMemoryRecord (f : FunctionStatus) (acc : FunctionStatus) : List VectorSample → FunctionStatus
  | [] => acc
  | v :: rest =>
    if v.Metric.Container = f.Name ∧ v.Metric.Namespace = f.Namespace then
      match v.Value with
      | SampleValue.str (some q) =>
          mixMemoryRecord f
            { acc with Usage := { acc.Usage with TotalMemoryBytes := acc.Usage.TotalMemoryBytes + q } } rest
      | SampleValue.str none => mixMemoryRecord f acc rest
      | SampleValue.nonStr => mixMemoryRecord f acc rest
    else mixMemoryRecord f acc rest

/-- The memory join `mixMemory`: like `mixCPU` but onto
`Usage.TotalMemoryBytes`. -/
def mixMemory (functions : List FunctionStatus) (metrics : VectorQueryResponse) : List FunctionStatus :=
  functions.map (fun function => mixMemoryRecord function function metrics.Data.Result)

/-- Inner loop of `mixTime` for one record: accumulates the running sum
into the record and the running match count `num`. -/
def mixTimeRecord (f : FunctionStatus) (acc : FunctionStatus) (num : ℚ) :
    List VectorSample → FunctionStatus × ℚ
  | [] => (acc, num)
  | v :: rest =>
    if v.Metric.FunctionName = f.Name ++ "." ++ f.Namespace then
      match v.Value with
      | SampleValue.str (some q) =>
          mixTimeRecord f { acc with InvocationAvgTime := acc.InvocationAvgTime + q } (num + 1) rest
      | SampleValue.str none => mixTimeRecord f acc num rest
      | SampleValue.nonStr => mixTimeRecord f acc num rest
    else mixTimeRecord f acc num rest

/-- One record of the latency join: scan all samples, then divide by the
match count unless it is zero. -/
def mixTimeRecordAvg (f : FunctionStatus) (samples : List VectorSample) : FunctionStatus :=
  let p := mixTimeRecord f f 0 samples
  if p.2 ≠ 0 then { p.1 with InvocationAvgTime := p.1.InvocationAvgTime / p.2 } else p.1

/-- The average-latency join `mixTime` of
`src/gateway/metrics/add_metrics.go`: matches on the `function_name`
label as `"name.namespace"`, accumulates sum and count, and divides
only when the count is non-zero. -/
def mixTime (functions : List FunctionStatus) (metrics : VectorQueryResponse) : List FunctionStatus :=
  functions.map (fun function => mixTimeRecordAvg function metrics.Data.Result)

/-- Prefix of the invocation-count query up to the interpolated
namespace (`sum(gateway_function_invocation_total...`). -/
def invocationQueryPre : String :=
  "sum(gateway_function_invocation_total\x7bfunction_name=~\".*."

/-- Suffix of the invocation-count query after the interpolated
namespace. -/
def invocationQueryPost : String :=
  "\"\x7d) by (function_name)"

/-- The namespace-scoped invocation-count query `q`. -/
def invocationQuery (ns : String) : String :=
  invocationQueryPre ++ ns ++ invocationQueryPost

/-- The cluster-scoped CPU query `q1` of the handler. -/
def cpuQuery : String :=
  "sum by(container, namespace) (irate(container_cpu_usage_seconds_total\x7bimage!=\"\",namespace=\"openfaas-fn\", container!=\"POD\"\x7d[5m])*100)"

/-- The cluster-scoped memory query `q2` of the handler. -/
def memQuery : String :=
  "sum by(container, namespace) (container_memory_working_set_bytes\x7bimage!=\"\",namespace=\"openfaas-fn\", container!=\"POD\"\x7d)"

/-- The cluster-scoped latency query `q3` of the handler. -/
def timeQuery : String :=
  "sum by (function_name) (gateway_function_request_seconds_sum / gateway_function_request_seconds_count)"

/-- Modelled from the spec: the metrics-backend transport (the
`PrometheusQueryFetcher` implementation, `prometheus_query.go`, is not
among the sources) is specified to deliver a zero-result response along
any error, so a failed query reaches the joins as the empty result; the
handler's own comment reads "log the error but continue, the mixIn will
correctly handle the empty results". -/
def fetchOrEmpty (fetch : String → Except String VectorQueryResponse) (q : String) :
    VectorQueryResponse :=
  match fetch q with
  | Except.ok r => r
  | Except.error _ => emptyVec

/-- The captured upstream body: its raw bytes together with the outcome
of `json.Unmarshal`-ing them into provider records. -/
structure UpstreamBody where
  raw : String
  parsed : Except String (List ProviderFunctionStatus)

/-- The captured upstream call (`recorder.Result()`): status code, and
an absent body modelled as `none`. -/
structure UpstreamResponse where
  Code : Nat
  Body : Option UpstreamBody

/-- Body of the handler's response: either the serialized enriched
record list, or plain error text. -/
inductive ResponseBody where
  | functionsJSON (functions : List FunctionStatus)
  | text (s : String)
deriving DecidableEq

/-- A written handler response. -/
structure HandlerResponse where
  Code : Nat
  Body : ResponseBody
deriving DecidableEq

/-- Outcome of one handler invocation: the silent early exit on a nil
body, or a written response. -/
inductive HandlerResult where
  | noResponse
  | response (r : HandlerResponse)
deriving DecidableEq

/-- The status code of a handler outcome, when one was written. -/
def HandlerResult.code? : HandlerResult → Option Nat
  | HandlerResult.noResponse => none
  | HandlerResult.response r => some r.Code

/-- Go's `http.Error`: writes the message and a trailing newline
(`fmt.Fprintln`) with the given status code. -/
def httpError (msg : String) (code : Nat) : HandlerResponse :=
  { Code := code, Body := ResponseBody.text (msg ++ "\n") }

/-- The enrichment handler `AddMetricsHandler` of
`src/gateway/metrics/add_metrics.go`.  Returns the handler outcome
together with the list of queries issued to the metrics backend, in
order.  The serialization of the enriched list is modelled as total, so
the source's marshal-error branch is unreachable here. -/
def AddMetricsHandler (fetch : String → Except String VectorQueryResponse)
    (u : UpstreamResponse) : HandlerResult × List String :=
  match u.Body with
  | none => (HandlerResult.noResponse, [])
  | some body =>
    if u.Code ≠ 200 then
      (HandlerResult.response (httpError body.raw u.Code), [])
    else
      match body.parsed with
      | Except.error _ =>
          (HandlerResult.response
            (httpError "Unable to parse list of functions from provider" 500), [])
      | Except.ok function =>
        let functions := function.map newFunctionStatus
        match functions with
        | [] =>
            (HandlerResult.response
              { Code := 200, Body := ResponseBody.functionsJSON functions }, [])
        | f0 :: _ =>
          let ns := f0.Namespace
          let q := invocationQuery ns
          let results := fetchOrEmpty fetch q
          let functions1 := mixIn functions results
          let results1 := fetchOrEmpty fetch cpuQuery
          let functions2 := mixCPU functions1 results1
          let results2 := fetchOrEmpty fetch memQuery
          let functions3 := mixMemory functions2 results2
          let results3 := fetchOrEmpty fetch timeQuery
          let functions4 := mixTime functions3 results3
          (HandlerResult.response
            { Code := 200, Body := ResponseBody.functionsJSON functions4 },
           [q, cpuQuery, memQuery, timeQuery])

/-- A Prometheus gauge vector keyed by one label value, as the exporter
uses it: `WithLabelValues(k).Set(v)` upserts the sample for `k`,
`Reset()` drops every sample. -/
structure Gauge where
  samples : List (String × ℚ)
deriving DecidableEq

/-- Replace the first sample with the given key, or append a fresh one. -/
def setList : List (String × ℚ) → String → ℚ → List (String × ℚ)
  | [], k, v => [(k, v)]
  | (a, b) :: t, k, v =>
    if a = k then (k, v) :: t else (a, b) :: setList t k v

/-- `WithLabelValues(k).Set(v)` on a gauge vector. -/
def Gauge.set (g : Gauge) (k : String) (v : ℚ) : Gauge :=
  ⟨setList g.samples k v⟩

/-- First sample held for a key in a sample list, when present. -/
def lookupQ : List (String × ℚ) → String → Option ℚ
  | [], _ => none
  | (a, b) :: t, k => if k = a then some b else lookupQ t k

/-- The sample value currently held for a key, when present. -/
def Gauge.value? (g : Gauge) (k : String) : Option ℚ :=
  lookupQ g.samples k

/-- `Reset()` on a gauge vector. -/
def Gauge.reset : Gauge := ⟨[]⟩

/-- The three gauge vectors of `MetricOptions` that `Collect` rewrites
on every scrape; the pre-accumulated counters and histograms it merely
re-emits are out of scope. -/
structure ExporterGauges where
  ServiceReplicasGauge : Gauge
  PodCpuUsageSecondsTotal : Gauge
  PodMemoryWorkingSetBytes : Gauge
deriving DecidableEq

/-- The sample name `Collect` keys the replica gauge by:
`"name.namespace"`, or the bare name when the namespace is empty. -/
def serviceName (service : ProviderFunctionStatus) : String :=
  if 0 < service.Namespace.length then service.Name ++ "." ++ service.Namespace
  else service.Name

/-- The per-service loop of `Collect`: set the replica count and zero
the CPU and memory gauges for every service of the snapshot. -/
def zeroServices : List ProviderFunctionStatus → ExporterGauges → ExporterGauges
  | [], g => g
  | s :: rest, g =>
    zeroServices rest
      { ServiceReplicasGauge := g.ServiceReplicasGauge.set (serviceName s) (s.Replicas : ℚ)
        PodCpuUsageSecondsTotal := g.PodCpuUsageSecondsTotal.set (serviceName s) 0
        PodMemoryWorkingSetBytes := g.PodMemoryWorkingSetBytes.set (serviceName s) 0 }

/-- The phase of `Collect` that runs before the on-demand refresh:
reset the replica gauge, then run the per-service loop. -/
def collectZeroPhase (services : List ProviderFunctionStatus) (g : ExporterGauges) :
    ExporterGauges :=
  zeroServices services { g with ServiceReplicasGauge := Gauge.reset }

/-- The on-demand CPU query `q1` of `Exporter.calc`
(`src/unnamed/part_002`). -/
def exporterCpuQuery : String :=
  "sum by(container, namespace) (container_cpu_usage_seconds_total\x7bimage!=\"\",namespace=\"openfaas-fn\", container!=\"POD\"\x7d)"

/-- The on-demand memory query `q2` of `Exporter.calc`. -/
def exporterMemQuery : String :=
  "sum by(container, namespace) (container_memory_working_set_bytes\x7bimage!=\"\",namespace=\"openfaas-fn\", container!=\"POD\"\x7d)"

/-- The gauge key `calc` derives from a sample:
`"container.namespace"`. -/
def sampleKey (v : VectorSample) : String :=
  v.Metric.Container ++ "." ++ v.Metric.Namespace

/-- What `calc` extracts from a sample value: `metricValue.(string)` is
an unchecked type assertion, so a non-string value is a runtime panic
(`none`); the `ParseFloat` error is discarded, leaving `f` at zero on a
malformed string. -/
def calcParse : SampleValue → Option ℚ
  | SampleValue.str (some q) => some q
  | SampleValue.str none => some 0
  | SampleValue.nonStr => none

/-- One query loop of `calc`: set the gauge keyed by
`"container.namespace"` to each sample's value; `none` models the panic
of the unchecked type assertion. -/
def setPass (g : Gauge) : List VectorSample → Option Gauge
  | [] => some g
  | v :: rest =>
    match calcParse v.Value with
    | none => none
    | some f => setPass (g.set (sampleKey v) f) rest

/-- `Exporter.calc` (the name `calc` is reserved in Lean): query CPU,
returning immediately on error; otherwise set the CPU gauges, then
query memory, returning on error; otherwise set the memory gauges.
Returns the gauges and the queries issued, in order. -/
def exporterCalc (fetch : String → Except String VectorQueryResponse) (g : ExporterGauges) :
    Option (ExporterGauges × List String) :=
  match fetch exporterCpuQuery with
  | Except.error _ => some (g, [exporterCpuQuery])
  | Except.ok r1 =>
    match setPass g.PodCpuUsageSecondsTotal r1.Data.Result with
    | none => none
    | some cpuG =>
      match fetch exporterMemQuery with
      | Except.error _ =>
          some ({ g with PodCpuUsageSecondsTotal := cpuG }, [exporterCpuQuery, exporterMemQuery])
      | Except.ok r2 =>
        match setPass g.PodMemoryWorkingSetBytes r2.Data.Result with
        | none => none
        | some memG =>
            some ({ g with PodCpuUsageSecondsTotal := cpuG, PodMemoryWorkingSetBytes := memG },
                  [exporterCpuQuery, exporterMemQuery])

/-- `Exporter.Collect` restricted to the gauge state it rewrites: the
zero phase (replica reset, per-service replica set and CPU/memory
zeroing) followed by the on-demand refresh `calc`; the gauges are then
emitted to the scraper in their final state.  Returns the final gauges
and the queries issued. -/
def Collect (fetch : String → Except String VectorQueryResponse)
    (services : List ProviderFunctionStatus) (g : ExporterGauges) :
    Option (ExporterGauges × List String) :=
  exporterCalc fetch (collectZeroPhase services g)

/-- A concrete enriched record used to exercise the joins. -/
def fA : FunctionStatus :=
  { Name := "fn1", Namespace := "ns1", Image := "img",
    InvocationCount := 0, InvocationAvgTime := 0,
    Usage := { CPU := 0, TotalMemoryBytes := 0 },
    Limits := { CPU := "", Memory := "" }, Requests := { CPU := "", Memory := "" },
    EnvProcess := "", EnvVars := [], AvailableReplicas := 1, Replicas := 1,
    Secrets := [], Labels := none, Annotations := none, Constraints := [],
    ReadOnlyRootFilesystem := false, CreatedAt := 0 }

/-- A sample matching `fA` under the `function_name` discipline. -/
def invSample (v : ℚ) : VectorSample :=
  { Metric := { FunctionName := "fn1.ns1", Container := "", Namespace := "" },
    Value := SampleValue.str (some v) }

/-- A sample matching `fA` under the container-and-namespace
discipline. -/
def cpuSample (v : ℚ) : VectorSample :=
  { Metric := { FunctionName := "", Container := "fn1", Namespace := "ns1" },
    Value := SampleValue.str (some v) }

/-- A concrete invocation-count query result. -/
def mI : VectorQueryResponse := ⟨⟨[invSample 1, invSample 2]⟩⟩

/-- The same result with the two samples swapped. -/
def mI2 : VectorQueryResponse := ⟨⟨[invSample 2, invSample 1]⟩⟩

/-- A concrete CPU/memory query result. -/
def mC : VectorQueryResponse := ⟨⟨[cpuSample (3/2), cpuSample (1/2)]⟩⟩

/-- The same result with the two samples swapped. -/
def mC2 : VectorQueryResponse := ⟨⟨[cpuSample (1/2), cpuSample (3/2)]⟩⟩

/-- A concrete latency query result with two matching samples. -/
def mT : VectorQueryResponse := ⟨⟨[invSample (1/5), invSample (4/5)]⟩⟩

/-- A concrete provider record (service `fn2.ns1`). -/
def provA : ProviderFunctionStatus :=
  { Name := "fn2", Namespace := "ns1", Image := "img", Limits := none, Requests := none,
    EnvProcess := "", EnvVars := [], AvailableReplicas := 1, Replicas := 1, Secrets := [],
    Labels := none, Annotations := none, Constraints := [], ReadOnlyRootFilesystem := false,
    CreatedAt := 0 }

/-- A concrete provider record (service `fn1.ns1`). -/
def provB : ProviderFunctionStatus :=
  { Name := "fn1", Namespace := "ns1", Image := "img", Limits := none, Requests := none,
    EnvProcess := "", EnvVars := [], AvailableReplicas := 2, Replicas := 2, Secrets := [],
    Labels := none, Annotations := none, Constraints := [], ReadOnlyRootFilesystem := false,
    CreatedAt := 7 }

/-- Gauge state left over from an earlier scrape: nonzero CPU and
memory samples for the service `fn1.ns1`. -/
def staleGauges : ExporterGauges :=
  { ServiceReplicasGauge := ⟨[]⟩
    PodCpuUsageSecondsTotal := ⟨[("fn1.ns1", 5)]⟩
    PodMemoryWorkingSetBytes := ⟨[("fn1.ns1", 7)]⟩ }

/-- A query client that fails exactly on the exporter's CPU query. -/
def fetchCpuDown : String → Except String VectorQueryResponse :=
  fun q => if q = exporterCpuQuery then Except.error "down" else Except.ok emptyVec

/-- A query client that fails exactly on the exporter's memory query. -/
def fetchMemDown : String → Except String VectorQueryResponse :=
  fun q => if q = exporterMemQuery then Except.error "down" else Except.ok emptyVec

/-- The parsed values of the samples matching a record under the
`function_name` discipline (`mixIn` and `mixTime`). -/
def invMatches (f : FunctionStatus) (samples : List VectorSample) : List ℚ :=
  samples.filterMap (fun v =>
    if v.Metric.FunctionName = f.Name ++ "." ++ f.Namespace then sampleParsed v.Value else none)

/-- The parsed values of the samples matching a record under the
container-and-namespace discipline (`mixCPU` and `mixMemory`). -/
def usageMatches (f : FunctionStatus) (samples : List VectorSample) : List ℚ :=
  samples.filterMap (fun v =>
    if v.Metric.Container = f.Name ∧ v.Metric.Namespace = f.Namespace then sampleParsed v.Value else none)

lemma mixInRecord_eq (f : FunctionStatus) :
    ∀ (samples : List VectorSample) (acc : FunctionStatus),
      mixInRecord f acc samples
        = { acc with InvocationCount := acc.InvocationCount + (invMatches f samples).sum } := by
  intro samples
  induction samples with
  | nil => intro acc; simp [mixInRecord, invMatches]
  | cons v rest ih =>
    intro acc
    by_cases h : v.Metric.FunctionName = f.Name ++ "." ++ f.Namespace
    · cases hv : v.Value with
      | str p =>
        cases p with
        | some q => simp [mixInRecord, h, hv, invMatches, sampleParsed, ih, add_assoc]
        | none => simp [mixInRecord, h, hv, invMatches, sampleParsed, ih]
      | nonStr => simp [mixInRecord, h, hv, invMatches, sampleParsed, ih]
    · simp [mixInRecord, h, invMatches, ih]

lemma mixCPURecord_eq (f : FunctionStatus) :
    ∀ (samples : List VectorSample) (acc : FunctionStatus),
      mixCPURecord f acc samples
        = { acc with Usage := { acc.Usage with CPU := acc.Usage.CPU + (usageMatches f samples).sum } } := by
  intro samples
  induction samples with
  | nil => intro acc; simp [mixCPURecord, usageMatches]
  | cons v rest ih =>
    intro acc
    by_cases h : v.Metric.Container = f.Name ∧ v.Metric.Namespace = f.Namespace
    · cases hv : v.Value with
      | str p =>
        cases p with
        | some q => simp [mixCPURecord, h, hv, usageMatches, sampleParsed, ih, add_assoc]
        | none => simp [mixCPURecord, h, hv, usageMatches, sampleParsed, ih]
      | nonStr => simp [mixCPURecord, h, hv, usageMatches, sampleParsed, ih]
    · simp [mixCPURecord, h, usageMatches, ih]

lemma mixMemoryRecord_eq (f : FunctionStatus) :
    ∀ (samples : List VectorSample) (acc : FunctionStatus),
      mixMemoryRecord f acc samples
        = { acc with Usage := { acc.Usage with
              TotalMemoryBytes := acc.Usage.TotalMemoryBytes + (usageMatches f samples).sum } } := by
  intro samples
  induction samples with
  | nil => intro acc; simp [mixMemoryRecord, usageMatches]
  | cons v rest ih =>
    intro acc
    by_cases h : v.Metric.Container = f.Name ∧ v.Metric.Namespace = f.Namespace
    · cases hv : v.Value with
      | str p =>
        cases p with
        | some q => simp [mixMemoryRecord, h, hv, usageMatches, sampleParsed, ih, add_assoc]
        | none => simp [mixMemoryRecord, h, hv, usageMatches, sampleParsed, ih]
      | nonStr => simp [mixMemoryRecord, h, hv, usageMatches, sampleParsed, ih]
    · simp [mixMemoryRecord, h, usageMatches, ih]

lemma mixTimeRecord_eq (f : FunctionStatus) :
    ∀ (samples : List VectorSample) (acc : FunctionStatus) (num : ℚ),
      mixTimeRecord f acc num samples
        = ({ acc with InvocationAvgTime := acc.InvocationAvgTime + (invMatches f samples).sum },
           num + ((invMatches f samples).length : ℚ)) := by
  intro samples
  induction samples with
  | nil => intro acc num; simp [mixTimeRecord, invMatches]
  | cons v rest ih =>
    intro acc num
    by_cases h : v.Metric.FunctionName = f.Name ++ "." ++ f.Namespace
    · cases hv : v.Value with
      | str p =>
        cases p with
        | some q =>
          simp only [mixTimeRecord, h, hv, if_true, invMatches, List.filterMap_cons,
            sampleParsed, ih, Prod.mk.injEq]
          constructor
          · simp [List.sum_cons, add_assoc]
          · simp only [List.length_cons]
            push_cast
            ring
        | none => simp [mixTimeRecord, h, hv, invMatches, sampleParsed, ih]
      | nonStr => simp [mixTimeRecord, h, hv, invMatches, sampleParsed, ih]
    · simp [mixTimeRecord, h, invMatches, ih]

lemma mixIn_empty (functions : List FunctionStatus) : mixIn functions emptyVec = functions := by
  simp [mixIn, emptyVec, mixInRecord]

lemma mixCPU_empty (functions : List FunctionStatus) : mixCPU functions emptyVec = functions := by
  simp [mixCPU, emptyVec, mixCPURecord]

lemma mixMemory_empty (functions : List FunctionStatus) : mixMemory functions emptyVec = functions := by
  simp [mixMemory, emptyVec, mixMemoryRecord]

lemma mixTime_empty (functions : List FunctionStatus) : mixTime functions emptyVec = functions := by
  simp [mixTime, emptyVec, mixTimeRecordAvg, mixTimeRecord]

lemma lookup_setList (l : List (String × ℚ)) (a k : String) (v : ℚ) :
    lookupQ (setList l a v) k = if k = a then some v else lookupQ l k := by
  induction l with
  | nil => by_cases hk : k = a <;> simp [setList, lookupQ, hk]
  | cons p t ih =>
    obtain ⟨b, c⟩ := p
    by_cases hb : b = a
    · subst hb
      by_cases hk : k = b <;> simp [setList, lookupQ, hk]
    · by_cases hk : k = b
      · subst hk
        simp [setList, hb, lookupQ, Ne.symm hb]
      · simp [setList, hb, lookupQ, hk, ih]

lemma Gauge.value?_set (g : Gauge) (a k : String) (v : ℚ) :
    (g.set a v).value? k = if k = a then some v else g.value? k := by
  simp [Gauge.set, Gauge.value?, lookup_setList]

lemma Gauge.value?_reset (k : String) : Gauge.reset.value? k = none := rfl

lemma zeroServices_cpu_preserve :
    ∀ (services : List ProviderFunctionStatus) (g : ExporterGauges) (k : String),
      g.PodCpuUsageSecondsTotal.value? k = some 0 →
      (zeroServices services g).PodCpuUsageSecondsTotal.value? k = some 0 := by
  intro services
  induction services with
  | nil => intro g k h; simpa [zeroServices] using h
  | cons s rest ih =>
    intro g k h
    simp only [zeroServices]
    apply ih
    simp only [Gauge.value?_set]
    by_cases hk : k = serviceName s <;> simp [hk, h]

lemma zeroServices_mem_preserve :
    ∀ (services : List ProviderFunctionStatus) (g : ExporterGauges) (k : String),
      g.PodMemoryWorkingSetBytes.value? k = some 0 →
      (zeroServices services g).PodMemoryWorkingSetBytes.value? k = some 0 := by
  intro services
  induction services with
  | nil => intro g k h; simpa [zeroServices] using h
  | cons s rest ih =>
    intro g k h
    simp only [zeroServices]
    apply ih
    simp only [Gauge.value?_set]
    by_cases hk : k = serviceName s <;> simp [hk, h]

lemma zeroServices_cpu_zero :
    ∀ (services : List ProviderFunctionStatus) (g : ExporterGauges) (s : ProviderFunctionStatus),
      s ∈ services →
      (zeroServices services g).PodCpuUsageSecondsTotal.value? (serviceName s) = some 0 := by
  intro services
  induction services with
  | nil => intro g s h; simp at h
  | cons x rest ih =>
    intro g s hs
    rcases List.mem_cons.mp hs with h | h
    · subst h
      simp only [zeroServices]
      apply zeroServices_cpu_preserve
      simp [Gauge.value?_set]
    · exact ih _ s h

lemma zeroServices_mem_zero :
    ∀ (services : List ProviderFunctionStatus) (g : ExporterGauges) (s : ProviderFunctionStatus),
      s ∈ services →
      (zeroServices services g).PodMemoryWorkingSetBytes.value? (serviceName s) = some 0 := by
  intro services
  induction services with
  | nil => intro g s h; simp at h
  | cons x rest ih =>
    intro g s hs
    rcases List.mem_cons.mp hs with h | h
    · subst h
      simp only [zeroServices]
      apply zeroServices_mem_preserve
      simp [Gauge.value?_set]
    · exact ih _ s h

lemma zeroServices_replicas_preserve :
    ∀ (services : List ProviderFunctionStatus) (g : ExporterGauges) (k : String),
      (∀ s ∈ services, serviceName s ≠ k) →
      (zeroServices services g).ServiceReplicasGauge.value? k
        = g.ServiceReplicasGauge.value? k := by
  intro services
  induction services with
  | nil => intro g k _; simp [zeroServices]
  | cons x rest ih =>
    intro g k h
    simp only [zeroServices]
    rw [ih _ _ (fun s hs => h s (List.mem_cons_of_mem _ hs))]
    simp only [Gauge.value?_set]
    have hx : serviceName x ≠ k := h x (List.mem_cons_self _ _)
    rw [if_neg (fun h2 => hx h2.symm)]

lemma zeroServices_replicas_set :
    ∀ (services : List ProviderFunctionStatus) (g : ExporterGauges) (s : ProviderFunctionStatus),
      s ∈ services → (services.map serviceName).Nodup →
      (zeroServices services g).ServiceReplicasGauge.value? (serviceName s)
        = some (s.Replicas : ℚ) := by
  intro services
  induction services with
  | nil => intro g s h; simp at h
  | cons x rest ih =>
    intro g s hs hnd
    have hnd2 : serviceName x ∉ rest.map serviceName ∧ (rest.map serviceName).Nodup := by
      simpa [List.nodup_cons] using hnd
    rcases List.mem_cons.mp hs with h | h
    · subst h
      simp only [zeroServices]
      rw [zeroServices_replicas_preserve]
      · simp [Gauge.value?_set]
      · intro s2 hs2 heq
        exact hnd2.1 (heq ▸ List.mem_map_of_mem serviceName hs2)
    · exact ih _ s h hnd2.2

lemma zeroServices_replicas_domain :
    ∀ (services : List ProviderFunctionStatus) (g : ExporterGauges) (k : String),
      (zeroServices services g).ServiceReplicasGauge.value? k ≠ none →
      g.ServiceReplicasGauge.value? k ≠ none ∨ k ∈ services.map serviceName := by
  intro services
  induction services with
  | nil => intro g k h; left; simpa [zeroServices] using h
  | cons x rest ih =>
    intro g k h
    simp only [zeroServices] at h
    rcases ih _ k h with h2 | h2
    · rw [Gauge.value?_set] at h2
      by_cases hk : k = serviceName x
      · right; simp [hk]
      · left; simpa [hk] using h2
    · right; simp [h2]

lemma setPass_value?_ne :
    ∀ (samples : List VectorSample) (g g2 : Gauge) (k : String),
      setPass g samples = some g2 → (∀ v ∈ samples, sampleKey v ≠ k) →
      g2.value? k = g.value? k := by
  intro samples
  induction samples with
  | nil =>
    intro g g2 k h hk
    simp only [setPass, Option.some.injEq] at h
    rw [h]
  | cons v rest ih =>
    intro g g2 k h hk
    cases hp : calcParse v.Value with
    | none => simp [setPass, hp] at h
    | some f =>
      simp only [setPass, hp] at h
      rw [ih _ _ _ h (fun w hw => hk w (List.mem_cons_of_mem _ hw)), Gauge.value?_set]
      have hne : sampleKey v ≠ k := hk v (List.mem_cons_self _ _)
      rw [if_neg (fun h2 => hne h2.symm)]

lemma invMatches_perm (f : FunctionStatus) {l1 l2 : List VectorSample}
    (h : List.Perm l1 l2) : (invMatches f l1).sum = (invMatches f l2).sum :=
  List.Perm.sum_eq (List.Perm.filterMap _ h)

lemma usageMatches_perm (f : FunctionStatus) {l1 l2 : List VectorSample}
    (h : List.Perm l1 l2) : (usageMatches f l1).sum = (usageMatches f l2).sum :=
  List.Perm.sum_eq (List.Perm.filterMap _ h)

lemma mixTimeRecordAvg_frame (f : FunctionStatus) (samples : List VectorSample) :
    mixTimeRecordAvg f samples
      = { f with InvocationAvgTime := (mixTimeRecordAvg f samples).InvocationAvgTime } := by
  simp only [mixTimeRecordAvg, mixTimeRecord_eq]
  split <;> rfl

lemma exporterCalc_replicas (fetch : String → Except String VectorQueryResponse)
    (g : ExporterGauges) (G : ExporterGauges) (qs : List String)
    (h : exporterCalc fetch g = some (G, qs)) :
    G.ServiceReplicasGauge = g.ServiceReplicasGauge := by
  unfold exporterCalc at h
  cases hf1 : fetch exporterCpuQuery with
  | error e =>
    simp only [hf1] at h
    simp only [Option.some.injEq, Prod.mk.injEq] at h
    rw [← h.1]
  | ok r1 =>
    simp only [hf1] at h
    cases hsp : setPass g.PodCpuUsageSecondsTotal r1.Data.Result with
    | none => simp only [hsp] at h; simp at h
    | some cpuG =>
      simp only [hsp] at h
      cases hf2 : fetch exporterMemQuery with
      | error e =>
        simp only [hf2] at h
        simp only [Option.some.injEq, Prod.mk.injEq] at h
        rw [← h.1]
      | ok r2 =>
        simp only [hf2] at h
        cases hsp2 : setPass g.PodMemoryWorkingSetBytes r2.Data.Result with
        | none => simp only [hsp2] at h; simp at h
        | some memG =>
          simp only [hsp2] at h
          simp only [Option.some.injEq, Prod.mk.injEq] at h
          rw [← h.1]

lemma exporterCalc_cpu_nomatch (fetch : String → Except String VectorQueryResponse)
    (g : ExporterGauges) (G : ExporterGauges) (qs : List String) (k : String)
    (h : exporterCalc fetch g = some (G, qs))
    (hk : ∀ r, fetch exporterCpuQuery = Except.ok r →
      ∀ v ∈ r.Data.Result, sampleKey v ≠ k) :
    G.PodCpuUsageSecondsTotal.value? k = g.PodCpuUsageSecondsTotal.value? k := by
  unfold exporterCalc at h
  cases hf1 : fetch exporterCpuQuery with
  | error e =>
    simp only [hf1] at h
    simp only [Option.some.injEq, Prod.mk.injEq] at h
    rw [← h.1]
  | ok r1 =>
    simp only [hf1] at h
    cases hsp : setPass g.PodCpuUsageSecondsTotal r1.Data.Result with
    | none => simp only [hsp] at h; simp at h
    | some cpuG =>
      have hcp : cpuG.value? k = g.PodCpuUsageSecondsTotal.value? k :=
        setPass_value?_ne _ _ _ _ hsp (hk r1 hf1)
      simp only [hsp] at h
      cases hf2 : fetch exporterMemQuery with
      | error e =>
        simp only [hf2] at h
        simp only [Option.some.injEq, Prod.mk.injEq] at h
        rw [← h.1]
        exact hcp
      | ok r2 =>
        simp only [hf2] at h
        cases hsp2 : setPass g.PodMemoryWorkingSetBytes r2.Data.Result with
        | none => simp only [hsp2] at h; simp at h
        | some memG =>
          simp only [hsp2] at h
          simp only [Option.some.injEq, Prod.mk.injEq] at h
          rw [← h.1]
          exact hcp

lemma exporterCalc_mem_nomatch (fetch : String → Except String VectorQueryResponse)
    (g : ExporterGauges) (G : ExporterGauges) (qs : List String) (k : String)
    (h : exporterCalc fetch g = some (G, qs))
    (hk : ∀ r, fetch exporterMemQuery = Except.ok r →
      ∀ v ∈ r.Data.Result, sampleKey v ≠ k) :
    G.PodMemoryWorkingSetBytes.value? k = g.PodMemoryWorkingSetBytes.value? k := by
  unfold exporterCalc at h
  cases hf1 : fetch exporterCpuQuery with
  | error e =>
    simp only [hf1] at h
    simp only [Option.some.injEq, Prod.mk.injEq] at h
    rw [← h.1]
  | ok r1 =>
    simp only [hf1] at h
    cases hsp : setPass g.PodCpuUsageSecondsTotal r1.Data.Result with
    | none => simp only [hsp] at h; simp at h
    | some cpuG =>
      simp only [hsp] at h
      cases hf2 : fetch exporterMemQuery with
      | error e =>
        simp only [hf2] at h
        simp only [Option.some.injEq, Prod.mk.injEq] at h
        rw [← h.1]
      | ok r2 =>
        simp only [hf2] at h
        cases hsp2 : setPass g.PodMemoryWorkingSetBytes r2.Data.Result with
        | none => simp only [hsp2] at h; simp at h
        | some memG =>
          have hmp : memG.value? k = g.PodMemoryWorkingSetBytes.value? k :=
            setPass_value?_ne _ _ _ _ hsp2 (hk r2 hf2)
          simp only [hsp2] at h
          simp only [Option.some.injEq, Prod.mk.injEq] at h
          rw [← h.1]
          exact hmp

/-- C1: for the average-latency join `mixTime`, for every record whose
field starts at its zero-initialised value: if exactly K > 0 samples of
the query result match the record's key with parsed values v1..vK, the
record's `InvocationAvgTime` after the join equals (v1+...+vK)/K; if
K = 0, the field remains 0 and no division by zero occurs. -/
theorem mixTime_mean (functions : List FunctionStatus) (metrics : VectorQueryResponse)
    (i : Nat) (h1 : i < functions.length) (h2 : i < (mixTime functions metrics).length)
    (h0 : (functions.get ⟨i, h1⟩).InvocationAvgTime = 0) :
    (0 < (invMatches (functions.get ⟨i, h1⟩) metrics.Data.Result).length →
      ((mixTime functions metrics).get ⟨i, h2⟩).InvocationAvgTime
        = (invMatches (functions.get ⟨i, h1⟩) metrics.Data.Result).sum
            / ((invMatches (functions.get ⟨i, h1⟩) metrics.Data.Result).length : ℚ))
    ∧ ((invMatches (functions.get ⟨i, h1⟩) metrics.Data.Result).length = 0 →
      ((mixTime functions metrics).get ⟨i, h2⟩).InvocationAvgTime = 0) := by
  simp only [List.get_eq_getElem] at h0 ⊢
  have hmap : (mixTime functions metrics)[i]
      = mixTimeRecordAvg functions[i] metrics.Data.Result := by
    simp [mixTime]
  rw [hmap]
  simp only [mixTimeRecordAvg, mixTimeRecord_eq]
  constructor
  · intro hK
    have hKne : ((invMatches functions[i] metrics.Data.Result).length : ℚ) ≠ 0 := by
      exact_mod_cast Nat.pos_iff_ne_zero.mp hK
    rw [if_pos (by simpa using hKne)]
    simp [h0]
  · intro hK
    have hKz : ((invMatches functions[i] metrics.Data.Result).length : ℚ) = 0 := by
      exact_mod_cast hK
    rw [if_neg (by simp [hKz])]
    have hnil : invMatches functions[i] metrics.Data.Result = [] :=
      List.length_eq_zero.mp hK
    simp [hnil, h0]

theorem mixTime_mean_witness :
    fA.InvocationAvgTime = 0
    ∧ 0 < (invMatches fA mT.Data.Result).length
    ∧ ((mixTime [fA] mT).get ⟨0, by decide⟩).InvocationAvgTime
        = (invMatches fA mT.Data.Result).sum / ((invMatches fA mT.Data.Result).length : ℚ) := by
  refine ⟨rfl, by decide, ?_⟩
  exact (mixTime_mean [fA] mT 0 (by decide) (by decide) rfl).1 (by decide)

/-- C2: for `mixIn`, `mixCPU` and `mixMemory`, for every record whose
metric field starts at its zero-initialised value, the field after the
join equals the arithmetic sum of the parsed values of the matching
samples, and the result of each join is invariant under any permutation
of the sample sequence (multiple matches are summed, never averaged or
overwritten). -/
theorem mix_sum_order_independent :
    (∀ (functions : List FunctionStatus) (metrics : VectorQueryResponse) (i : Nat)
        (h1 : i < functions.length) (h2 : i < (mixIn functions metrics).length),
        (functions.get ⟨i, h1⟩).InvocationCount = 0 →
        ((mixIn functions metrics).get ⟨i, h2⟩).InvocationCount
          = (invMatches (functions.get ⟨i, h1⟩) metrics.Data.Result).sum)
    ∧ (∀ (functions : List FunctionStatus) (m1 m2 : VectorQueryResponse),
        List.Perm m1.Data.Result m2.Data.Result → mixIn functions m1 = mixIn functions m2)
    ∧ (∀ (functions : List FunctionStatus) (metrics : VectorQueryResponse) (i : Nat)
        (h1 : i < functions.length) (h2 : i < (mixCPU functions metrics).length),
        (functions.get ⟨i, h1⟩).Usage.CPU = 0 →
        ((mixCPU functions metrics).get ⟨i, h2⟩).Usage.CPU
          = (usageMatches (functions.get ⟨i, h1⟩) metrics.Data.Result).sum)
    ∧ (∀ (functions : List FunctionStatus) (m1 m2 : VectorQueryResponse),
        List.Perm m1.Data.Result m2.Data.Result → mixCPU functions m1 = mixCPU functions m2)
    ∧ (∀ (functions : List FunctionStatus) (metrics : VectorQueryResponse) (i : Nat)
        (h1 : i < functions.length) (h2 : i < (mixMemory functions metrics).length),
        (functions.get ⟨i, h1⟩).Usage.TotalMemoryBytes = 0 →
        ((mixMemory functions metrics).get ⟨i, h2⟩).Usage.TotalMemoryBytes
          = (usageMatches (functions.get ⟨i, h1⟩) metrics.Data.Result).sum)
    ∧ (∀ (functions : List FunctionStatus) (m1 m2 : VectorQueryResponse),
        List.Perm m1.Data.Result m2.Data.Result → mixMemory functions m1 = mixMemory functions m2) := by
  refine ⟨?_, ?_, ?_, ?_, ?_, ?_⟩
  · intro functions metrics i h1 h2 h0
    simp only [List.get_eq_getElem] at h0
    simp [mixIn, List.get_eq_getElem, mixInRecord_eq, h0]
  · intro functions m1 m2 h
    have hfun : (fun function => mixInRecord function function m1.Data.Result)
        = (fun function => mixInRecord function function m2.Data.Result) := by
      funext f
      rw [mixInRecord_eq, mixInRecord_eq, invMatches_perm f h]
    simp only [mixIn, hfun]
  · intro functions metrics i h1 h2 h0
    simp only [List.get_eq_getElem] at h0
    simp [mixCPU, List.get_eq_getElem, mixCPURecord_eq, h0]
  · intro functions m1 m2 h
    have hfun : (fun function => mixCPURecord function function m1.Data.Result)
        = (fun function => mixCPURecord function function m2.Data.Result) := by
      funext f
      rw [mixCPURecord_eq, mixCPURecord_eq, usageMatches_perm f h]
    simp only [mixCPU, hfun]
  · intro functions metrics i h1 h2 h0
    simp only [List.get_eq_getElem] at h0
    simp [mixMemory, List.get_eq_getElem, mixMemoryRecord_eq, h0]
  · intro functions m1 m2 h
    have hfun : (fun function => mixMemoryRecord function function m1.Data.Result)
        = (fun function => mixMemoryRecord function function m2.Data.Result) := by
      funext f
      rw [mixMemoryRecord_eq, mixMemoryRecord_eq, usageMatches_perm f h]
    simp only [mixMemory, hfun]

theorem mix_sum_order_independent_witness :
    fA.InvocationCount = 0
    ∧ ((mixIn [fA] mI).get ⟨0, by decide⟩).InvocationCount = (invMatches fA mI.Data.Result).sum
    ∧ List.Perm mI.Data.Result mI2.Data.Result
    ∧ mixIn [fA] mI = mixIn [fA] mI2
    ∧ fA.Usage.CPU = 0
    ∧ ((mixCPU [fA] mC).get ⟨0, by decide⟩).Usage.CPU = (usageMatches fA mC.Data.Result).sum
    ∧ mixCPU [fA] mC = mixCPU [fA] mC2
    ∧ ((mixMemory [fA] mC).get ⟨0, by decide⟩).Usage.TotalMemoryBytes
        = (usageMatches fA mC.Data.Result).sum
    ∧ mixMemory [fA] mC = mixMemory [fA] mC2 := by
  refine ⟨rfl, ?_, List.Perm.swap (invSample 2) (invSample 1) [], ?_, rfl, ?_, ?_, ?_, ?_⟩
  · exact mix_sum_order_independent.1 [fA] mI 0 (by decide) (by decide) rfl
  · exact mix_sum_order_independent.2.1 [fA] mI mI2 (List.Perm.swap (invSample 2) (invSample 1) [])
  · exact mix_sum_order_independent.2.2.1 [fA] mC 0 (by decide) (by decide) rfl
  · exact mix_sum_order_independent.2.2.2.1 [fA] mC mC2 (List.Perm.swap (cpuSample (1/2)) (cpuSample (3/2)) [])
  · exact mix_sum_order_independent.2.2.2.2.1 [fA] mC 0 (by decide) (by decide) rfl
  · exact mix_sum_order_independent.2.2.2.2.2 [fA] mC mC2 (List.Perm.swap (cpuSample (1/2)) (cpuSample (3/2)) [])

/-- C9: every join function preserves the length and order of the
record list and leaves every field of every record unchanged except the
single metric field it targets (`InvocationCount`, `Usage.CPU`,
`Usage.TotalMemoryBytes`, `InvocationAvgTime` respectively). -/
theorem mix_frame_preservation :
    (∀ (functions : List FunctionStatus) (metrics : VectorQueryResponse),
        (mixIn functions metrics).length = functions.length)
    ∧ (∀ (functions : List FunctionStatus) (metrics : VectorQueryResponse),
        (mixCPU functions metrics).length = functions.length)
    ∧ (∀ (functions : List FunctionStatus) (metrics : VectorQueryResponse),
        (mixMemory functions metrics).length = functions.length)
    ∧ (∀ (functions : List FunctionStatus) (metrics : VectorQueryResponse),
        (mixTime functions metrics).length = functions.length)
    ∧ (∀ (functions : List FunctionStatus) (metrics : VectorQueryResponse) (i : Nat)
        (h1 : i < functions.length) (h2 : i < (mixIn functions metrics).length),
        (mixIn functions metrics).get ⟨i, h2⟩
          = { functions.get ⟨i, h1⟩ with
              InvocationCount := ((mixIn functions metrics).get ⟨i, h2⟩).InvocationCount })
    ∧ (∀ (functions : List FunctionStatus) (metrics : VectorQueryResponse) (i : Nat)
        (h1 : i < functions.length) (h2 : i < (mixCPU functions metrics).length),
        (mixCPU functions metrics).get ⟨i, h2⟩
          = { functions.get ⟨i, h1⟩ with
              Usage := { (functions.get ⟨i, h1⟩).Usage with
                CPU := ((mixCPU functions metrics).get ⟨i, h2⟩).Usage.CPU } })
    ∧ (∀ (functions : List FunctionStatus) (metrics : VectorQueryResponse) (i : Nat)
        (h1 : i < functions.length) (h2 : i < (mixMemory functions metrics).length),
        (mixMemory functions metrics).get ⟨i, h2⟩
          = { functions.get ⟨i, h1⟩ with
              Usage := { (functions.get ⟨i, h1⟩).Usage with
                TotalMemoryBytes :=
                  ((mixMemory functions metrics).get ⟨i, h2⟩).Usage.TotalMemoryBytes } })
    ∧ (∀ (functions : List FunctionStatus) (metrics : VectorQueryResponse) (i : Nat)
        (h1 : i < functions.length) (h2 : i < (mixTime functions metrics).length),
        (mixTime functions metrics).get ⟨i, h2⟩
          = { functions.get ⟨i, h1⟩ with
              InvocationAvgTime :=
                ((mixTime functions metrics).get ⟨i, h2⟩).InvocationAvgTime }) := by
  refine ⟨?_, ?_, ?_, ?_, ?_, ?_, ?_, ?_⟩
  · intro functions metrics; simp [mixIn]
  · intro functions metrics; simp [mixCPU]
  · intro functions metrics; simp [mixMemory]
  · intro functions metrics; simp [mixTime]
  · intro functions metrics i h1 h2
    simp [mixIn, List.get_eq_getElem, mixInRecord_eq]
  · intro functions metrics i h1 h2
    simp [mixCPU, List.get_eq_getElem, mixCPURecord_eq]
  · intro functions metrics i h1 h2
    simp [mixMemory, List.get_eq_getElem, mixMemoryRecord_eq]
  · intro functions metrics i h1 h2
    have hmap : (mixTime functions metrics).get ⟨i, h2⟩
        = mixTimeRecordAvg (functions.get ⟨i, h1⟩) metrics.Data.Result := by
      simp [mixTime, List.get_eq_getElem]
    rw [hmap, mixTimeRecordAvg_frame]

theorem mix_frame_preservation_witness :
    (mixIn [fA] mI).length = [fA].length
    ∧ (mixIn [fA] mI).get ⟨0, by decide⟩
        = { [fA].get ⟨0, by decide⟩ with
            InvocationCount := ((mixIn [fA] mI).get ⟨0, by decide⟩).InvocationCount }
    ∧ (mixTime [fA] mT).get ⟨0, by decide⟩
        = { [fA].get ⟨0, by decide⟩ with
            InvocationAvgTime := ((mixTime [fA] mT).get ⟨0, by decide⟩).InvocationAvgTime } := by
  refine ⟨mix_frame_preservation.1 [fA] mI, ?_, ?_⟩
  · exact mix_frame_preservation.2.2.2.2.1 [fA] mI 0 (by decide) (by decide)
  · exact mix_frame_preservation.2.2.2.2.2.2.2 [fA] mT 0 (by decide) (by decide)

/-- C3: for every request whose upstream body parses to a non-empty
record list, the handler writes a 200 response, issues all four
metrics-backend queries in order regardless of which of them fail, and
behaves identically to a run in which every failed query is replaced by
a successful empty-result query (fail-open: a query failure is treated
as a zero-result join and aborts nothing). -/
theorem handler_query_fail_open (fetch : String → Except String VectorQueryResponse)
    (raw : String) (p0 : ProviderFunctionStatus) (rest : List ProviderFunctionStatus) :
    (AddMetricsHandler fetch
        { Code := 200, Body := some { raw := raw, parsed := Except.ok (p0 :: rest) } }).1.code?
      = some 200
    ∧ (AddMetricsHandler fetch
        { Code := 200, Body := some { raw := raw, parsed := Except.ok (p0 :: rest) } }).2
      = [invocationQuery p0.Namespace, cpuQuery, memQuery, timeQuery]
    ∧ AddMetricsHandler fetch
        { Code := 200, Body := some { raw := raw, parsed := Except.ok (p0 :: rest) } }
      = AddMetricsHandler (fun q => Except.ok (fetchOrEmpty fetch q))
        { Code := 200, Body := some { raw := raw, parsed := Except.ok (p0 :: rest) } } :=
  ⟨rfl, rfl, rfl⟩

/-- C7: with a non-empty parsed record list, the invocation-count query
is scoped by the namespace of the first record (the namespace is
interpolated between two fixed fragments of the query string), while
the CPU, memory and latency queries are the fixed cluster-scoped
strings `cpuQuery`, `memQuery`, `timeQuery`, which mention no record's
namespace. -/
theorem handler_query_scoping (fetch : String → Except String VectorQueryResponse)
    (raw : String) (p0 : ProviderFunctionStatus) (rest : List ProviderFunctionStatus) :
    (AddMetricsHandler fetch
        { Code := 200, Body := some { raw := raw, parsed := Except.ok (p0 :: rest) } }).2
      = [invocationQueryPre ++ p0.Namespace ++ invocationQueryPost, cpuQuery, memQuery, timeQuery] :=
  rfl

/-- C4 (amended): for a non-OK upstream status the handler forwards
exactly the captured status code, and the captured body followed by the
single trailing newline that `http.Error` appends; the body is not
forwarded byte-for-byte. -/
theorem error_passthrough_status_body (fetch : String → Except String VectorQueryResponse)
    (code : Nat) (b : UpstreamBody) (h : code ≠ 200) :
    AddMetricsHandler fetch { Code := code, Body := some b }
      = (HandlerResult.response { Code := code, Body := ResponseBody.text (b.raw ++ "\n") }, []) := by
  simp [AddMetricsHandler, httpError, h]

theorem error_passthrough_status_body_witness :
    (503 : Nat) ≠ 200
    ∧ AddMetricsHandler (fun _ => Except.ok emptyVec)
        { Code := 503, Body := some { raw := "boom", parsed := Except.error "e" } }
      = (HandlerResult.response { Code := 503, Body := ResponseBody.text ("boom" ++ "\n") }, []) :=
  ⟨by decide,
   error_passthrough_status_body (fun _ => Except.ok emptyVec) 503
     { raw := "boom", parsed := Except.error "e" } (by decide)⟩

/-- C4 counterexample: a 503 upstream response with body `"boom"` is
not passed through byte-for-byte: the client receives `"boom\n"`
(`http.Error` appends a newline), so the claimed verbatim body is not
what is written. -/
theorem error_passthrough_newline_cex :
    (AddMetricsHandler (fun _ => Except.ok emptyVec)
        { Code := 503, Body := some { raw := "boom", parsed := Except.error "e" } }).1
      ≠ HandlerResult.response { Code := 503, Body := ResponseBody.text "boom" } := by
  decide

/-- C8 (amended): a body that fails to parse under an OK status yields
a 500 response whose body is the fixed message
`"Unable to parse list of functions from provider"` (capitalised, and
followed by the newline `http.Error` appends), independently of the raw
body and of the parse error text, which therefore never reach the
client. -/
theorem parse_error_fixed_response (fetch : String → Except String VectorQueryResponse)
    (raw e : String) :
    AddMetricsHandler fetch { Code := 200, Body := some { raw := raw, parsed := Except.error e } }
      = (HandlerResult.response
          { Code := 500,
            Body := ResponseBody.text ("Unable to parse list of functions from provider" ++ "\n") },
         []) :=
  rfl

/-- C8 counterexample: the response body on a parse failure is not the
claimed lowercase message `"unable to parse list of functions from
provider"` (the source writes a capitalised message, and the error
writer appends a newline). -/
theorem parse_error_message_cex :
    (AddMetricsHandler (fun _ => Except.ok emptyVec)
        { Code := 200, Body := some { raw := "x", parsed := Except.error "invalid character" } }).1
      ≠ HandlerResult.response
          { Code := 500,
            Body := ResponseBody.text "unable to parse list of functions from provider" } := by
  decide

/-- C5: enriching any parsed record list with a query client that
always returns the empty result produces exactly the zero-initialised
input list: the response is a 200 carrying `l.map newFunctionStatus`,
whose length equals the input's, whose metric fields are all zero and
whose non-metric fields are copied from the parsed input, in order. -/
theorem enrich_empty_identity (fetch : String → Except String VectorQueryResponse)
    (hfetch : ∀ q, fetch q = Except.ok emptyVec)
    (raw : String) (l : List ProviderFunctionStatus) :
    (AddMetricsHandler fetch { Code := 200, Body := some { raw := raw, parsed := Except.ok l } }).1
      = HandlerResult.response
          { Code := 200, Body := ResponseBody.functionsJSON (l.map newFunctionStatus) }
    ∧ (l.map newFunctionStatus).length = l.length
    ∧ ∀ (i : Nat) (h1 : i < l.length) (h2 : i < (l.map newFunctionStatus).length),
        ((l.map newFunctionStatus).get ⟨i, h2⟩).InvocationCount = 0
        ∧ ((l.map newFunctionStatus).get ⟨i, h2⟩).InvocationAvgTime = 0
        ∧ ((l.map newFunctionStatus).get ⟨i, h2⟩).Usage = { CPU := 0, TotalMemoryBytes := 0 }
        ∧ ((l.map newFunctionStatus).get ⟨i, h2⟩).Name = (l.get ⟨i, h1⟩).Name
        ∧ ((l.map newFunctionStatus).get ⟨i, h2⟩).Namespace = (l.get ⟨i, h1⟩).Namespace
        ∧ ((l.map newFunctionStatus).get ⟨i, h2⟩).Image = (l.get ⟨i, h1⟩).Image
        ∧ ((l.map newFunctionStatus).get ⟨i, h2⟩).Replicas = (l.get ⟨i, h1⟩).Replicas
        ∧ ((l.map newFunctionStatus).get ⟨i, h2⟩).AvailableReplicas
            = (l.get ⟨i, h1⟩).AvailableReplicas
        ∧ ((l.map newFunctionStatus).get ⟨i, h2⟩).EnvProcess = (l.get ⟨i, h1⟩).EnvProcess
        ∧ ((l.map newFunctionStatus).get ⟨i, h2⟩).EnvVars = (l.get ⟨i, h1⟩).EnvVars
        ∧ ((l.map newFunctionStatus).get ⟨i, h2⟩).Secrets = (l.get ⟨i, h1⟩).Secrets
        ∧ ((l.map newFunctionStatus).get ⟨i, h2⟩).Labels = (l.get ⟨i, h1⟩).Labels
        ∧ ((l.map newFunctionStatus).get ⟨i, h2⟩).Annotations = (l.get ⟨i, h1⟩).Annotations
        ∧ ((l.map newFunctionStatus).get ⟨i, h2⟩).Constraints = (l.get ⟨i, h1⟩).Constraints
        ∧ ((l.map newFunctionStatus).get ⟨i, h2⟩).ReadOnlyRootFilesystem
            = (l.get ⟨i, h1⟩).ReadOnlyRootFilesystem
        ∧ ((l.map newFunctionStatus).get ⟨i, h2⟩).CreatedAt = (l.get ⟨i, h1⟩).CreatedAt := by
  have he : ∀ q, fetchOrEmpty fetch q = emptyVec := by
    intro q; rw [fetchOrEmpty, hfetch]
  refine ⟨?_, by simp, ?_⟩
  · cases l with
    | nil => rfl
    | cons p0 rest2 =>
      simp only [AddMetricsHandler, List.map_cons, he, mixIn_empty, mixCPU_empty,
        mixMemory_empty, mixTime_empty]
      simp
  · intro i h1 h2
    simp [List.get_eq_getElem, newFunctionStatus]

theorem enrich_empty_identity_witness :
    (AddMetricsHandler (fun _ => Except.ok emptyVec)
        { Code := 200, Body := some { raw := "[]", parsed := Except.ok [provB] } }).1
      = HandlerResult.response
          { Code := 200, Body := ResponseBody.functionsJSON ([provB].map newFunctionStatus) } :=
  (enrich_empty_identity (fun _ => Except.ok emptyVec) (fun _ => rfl) "[]" [provB]).1

/-- C6 (amended): on every scrape, before the on-demand refresh, the
replica gauge is reset and then set to the current replica count for
each service of the snapshot (under distinct service names), and the
CPU and memory gauges are set to zero for every service of the
snapshot; consequently a service still in the snapshot for which the
refresh queries return no sample reports exactly zero CPU and memory,
and the replica gauge holds keys only for snapshot services.  (A
service dropped from the snapshot, by contrast, retains its last-set
CPU/memory gauge entries: they are neither zeroed nor removed.) -/
theorem collect_zeroes_snapshot_services
    (fetch : String → Except String VectorQueryResponse)
    (services : List ProviderFunctionStatus) (g : ExporterGauges)
    (s : ProviderFunctionStatus) (hs : s ∈ services) :
    Collect fetch services g = exporterCalc fetch (collectZeroPhase services g)
    ∧ (collectZeroPhase services g).PodCpuUsageSecondsTotal.value? (serviceName s) = some 0
    ∧ (collectZeroPhase services g).PodMemoryWorkingSetBytes.value? (serviceName s) = some 0
    ∧ ((services.map serviceName).Nodup →
        (collectZeroPhase services g).ServiceReplicasGauge.value? (serviceName s)
          = some (s.Replicas : ℚ))
    ∧ (∀ k, (collectZeroPhase services g).ServiceReplicasGauge.value? k ≠ none →
        k ∈ services.map serviceName)
    ∧ (∀ G qs, Collect fetch services g = some (G, qs) →
        G.ServiceReplicasGauge = (collectZeroPhase services g).ServiceReplicasGauge)
    ∧ (∀ G qs, Collect fetch services g = some (G, qs) →
        (∀ r, fetch exporterCpuQuery = Except.ok r →
          ∀ v ∈ r.Data.Result, sampleKey v ≠ serviceName s) →
        G.PodCpuUsageSecondsTotal.value? (serviceName s) = some 0)
    ∧ (∀ G qs, Collect fetch services g = some (G, qs) →
        (∀ r, fetch exporterMemQuery = Except.ok r →
          ∀ v ∈ r.Data.Result, sampleKey v ≠ serviceName s) →
        G.PodMemoryWorkingSetBytes.value? (serviceName s) = some 0) := by
  refine ⟨rfl, zeroServices_cpu_zero _ _ _ hs, zeroServices_mem_zero _ _ _ hs,
    fun hnd => zeroServices_replicas_set _ _ _ hs hnd, ?_, ?_, ?_, ?_⟩
  · intro k h
    rcases zeroServices_replicas_domain services _ k h with h2 | h2
    · exact (h2 rfl).elim
    · exact h2
  · intro G qs hC
    exact exporterCalc_replicas fetch _ G qs hC
  · intro G qs hC hk
    rw [exporterCalc_cpu_nomatch fetch _ G qs (serviceName s) hC hk]
    exact zeroServices_cpu_zero _ _ _ hs
  · intro G qs hC hk
    rw [exporterCalc_mem_nomatch fetch _ G qs (serviceName s) hC hk]
    exact zeroServices_mem_zero _ _ _ hs

theorem collect_zeroes_snapshot_services_witness :
    provA ∈ [provA]
    ∧ (collectZeroPhase [provA] staleGauges).PodCpuUsageSecondsTotal.value? (serviceName provA)
        = some 0
    ∧ (collectZeroPhase [provA] staleGauges).PodMemoryWorkingSetBytes.value? (serviceName provA)
        = some 0
    ∧ (collectZeroPhase [provA] staleGauges).ServiceReplicasGauge.value? (serviceName provA)
        = some ((provA.Replicas : Nat) : ℚ) := by
  have h := collect_zeroes_snapshot_services (fun _ => Except.ok emptyVec) [provA] staleGauges
    provA (by decide)
  exact ⟨by decide, h.2.1, h.2.2.1, h.2.2.2.1 (by decide)⟩

/-- C6 counterexample: a scrape (with both refresh queries succeeding
with empty results) after the watcher dropped the previously-known
service `fn1.ns1` from the snapshot still reports its stale nonzero CPU
(5) and memory (7) gauge values, because `Collect` zeroes the CPU and
memory gauges only for services present in the snapshot. -/
theorem collect_stale_dropped_service_cex :
    (Collect (fun _ => Except.ok emptyVec) [provA] staleGauges).map
        (fun p => (p.1.PodCpuUsageSecondsTotal.value? "fn1.ns1",
                   p.1.PodMemoryWorkingSetBytes.value? "fn1.ns1"))
      = some (some 5, some 7)
    ∧ serviceName provA ≠ "fn1.ns1"
    ∧ (5 : ℚ) ≠ 0 ∧ (7 : ℚ) ≠ 0 := by
  decide

/-- C10: if the on-demand CPU query of `calc` fails, `calc` returns
immediately without issuing the memory query, leaving every gauge
unchanged — in a scrape, every snapshot service's CPU and memory gauge
remains at the zero set earlier in `Collect`; a memory-query failure,
by contrast, leaves the CPU gauges refreshed from the CPU query. -/
theorem calc_cpu_error_short_circuit :
    (∀ (fetch : String → Except String VectorQueryResponse) (g : ExporterGauges) (e : String),
        fetch exporterCpuQuery = Except.error e →
        exporterCalc fetch g = some (g, [exporterCpuQuery])
        ∧ exporterMemQuery ∉ ([exporterCpuQuery] : List String))
    ∧ (∀ (fetch : String → Except String VectorQueryResponse)
        (services : List ProviderFunctionStatus) (g : ExporterGauges) (e : String),
        fetch exporterCpuQuery = Except.error e →
        Collect fetch services g = some (collectZeroPhase services g, [exporterCpuQuery])
        ∧ ∀ s ∈ services,
            (collectZeroPhase services g).PodCpuUsageSecondsTotal.value? (serviceName s) = some 0
            ∧ (collectZeroPhase services g).PodMemoryWorkingSetBytes.value? (serviceName s)
                = some 0)
    ∧ (∀ (fetch : String → Except String VectorQueryResponse) (g : ExporterGauges) (e : String)
        (r1 : VectorQueryResponse) (cpuG : Gauge),
        fetch exporterCpuQuery = Except.ok r1 →
        setPass g.PodCpuUsageSecondsTotal r1.Data.Result = some cpuG →
        fetch exporterMemQuery = Except.error e →
        exporterCalc fetch g
          = some ({ g with PodCpuUsageSecondsTotal := cpuG },
                  [exporterCpuQuery, exporterMemQuery])) := by
  refine ⟨?_, ?_, ?_⟩
  · intro fetch g e h
    exact ⟨by simp [exporterCalc, h], by decide⟩
  · intro fetch services g e h
    exact ⟨by simp [Collect, exporterCalc, h],
      fun s hs => ⟨zeroServices_cpu_zero _ _ _ hs, zeroServices_mem_zero _ _ _ hs⟩⟩
  · intro fetch g e r1 cpuG h1 hsp h2
    simp [exporterCalc, h1, hsp, h2]

theorem calc_cpu_error_short_circuit_witness :
    fetchCpuDown exporterCpuQuery = Except.error "down"
    ∧ exporterCalc fetchCpuDown staleGauges = some (staleGauges, [exporterCpuQuery])
    ∧ Collect fetchCpuDown [provA] staleGauges
        = some (collectZeroPhase [provA] staleGauges, [exporterCpuQuery])
    ∧ fetchMemDown exporterCpuQuery = Except.ok emptyVec
    ∧ fetchMemDown exporterMemQuery = Except.error "down"
    ∧ exporterCalc fetchMemDown staleGauges
        = some ({ staleGauges with
                  PodCpuUsageSecondsTotal := staleGauges.PodCpuUsageSecondsTotal },
                [exporterCpuQuery, exporterMemQuery]) := by
  have h1 : fetchCpuDown exporterCpuQuery = Except.error "down" := by
    rw [fetchCpuDown]
    rw [if_pos rfl]
  have h2 : fetchMemDown exporterMemQuery = Except.error "down" := by
    rw [fetchMemDown]
    rw [if_pos rfl]
  have h3 : fetchMemDown exporterCpuQuery = Except.ok emptyVec := by
    rw [fetchMemDown]
    rw [if_neg (by decide)]
  refine ⟨h1, (calc_cpu_error_short_circuit.1 fetchCpuDown staleGauges "down" h1).1,
    (calc_cpu_error_short_circuit.2.1 fetchCpuDown [provA] staleGauges "down" h1).1,
    h3, h2, ?_⟩
  exact calc_cpu_error_short_circuit.2.2 fetchMemDown staleGauges "down" emptyVec
    staleGauges.PodCpuUsageSecondsTotal h3 rfl h2

end FaaS
